import Mathlib

/-!
# TuGranjita — verification of the read-endpoint query pipeline

Shallow embedding of the two HTTP services of the repository:

* `services/crm/index.js` — `GET /clientes` (search `q`, filter `ubicacionId`,
  page-mode pagination `page`/`pageSize`, post-filter schema-validation gate);
* `services/iot/index.js` — `GET /sensores` (filters `tipo`, `ubicacionId`)
  and `GET /lecturas` (filters `sensorId`, `ubicacionId`, temporal `from`/`to`,
  limit-mode pagination `limit`, post-filter schema-validation gate).

External collaborators are modelled as capabilities passed to each handler:

* the record store is an `Except String data` (the `String` is the message of
  the read error, surfaced as a 500 by the handlers);
* the compiled Ajv validator is a function `record → Option Violation`
  (`none` = record conforms, `some v` = the first reported violation, carrying
  the `instancePath` and the optional `message` exactly as Ajv reports them);
* `new Date(...)` parsing is a function `String → Option Int` returning the
  epoch milliseconds, `none` meaning an invalid date (`NaN` time value).

Records are modelled as structured values (the JS null-guards `s && s.id`
only defend against `null` array members, which the JSON data files do not
contain).  Query parameters are `Option String`: `none` is an absent
parameter, matching the handlers' `typeof v === "string"` normalisation.
-/

/-- HTTP response: either an error status (400/404/500) with a `detail`
message, or a 200 with a typed body. -/
inductive HResp (α : Type) where
  | err (status : Nat) (detail : String)
  | ok (body : α)
  deriving Repr, DecidableEq

/-- Status code of a response; a body is a 200. -/
def respStatus : HResp α → Nat
  | .err s _ => s
  | .ok _ => 200

/-- First schema violation reported by the Ajv validator for one record:
`instancePath` and (possibly absent) `message`, as in `validate.errors[0]`. -/
structure Violation where
  instancePath : String
  message : Option String
  deriving Repr, DecidableEq

/-- `first.message || "no conforme"` — the message string embedded in the
500 detail (an absent or empty Ajv message falls back to `"no conforme"`). -/
def violMsg (v : Violation) : String :=
  match v.message with
  | some m => if m == "" then "no conforme" else m
  | none => "no conforme"

/-- A CRM client/supplier record (fields the `/clientes` handlers touch;
`correo_electronico` and `direccion` are optional in the schema). -/
structure Cliente where
  id : String
  nombre : String
  correo_electronico : Option String
  direccion : Option String
  deriving Repr, DecidableEq

/-- An IoT sensor record (fields the handlers touch). -/
structure Sensor where
  id : String
  tipo : String
  ubicacion : String
  deriving Repr, DecidableEq

/-- An IoT reading record (fields the `/lecturas` handler touches). -/
structure Lectura where
  id_lectura : String
  id_sensor : String
  valor : Int
  unidad : String
  timestamp : String
  deriving Repr, DecidableEq

/-- Numeric value of a list of decimal digit characters. -/
def digitsToNat (cs : List Char) : Nat :=
  cs.foldl (fun a c => a * 10 + (c.toNat - 48)) 0

/-- `Number.parseInt(s, 10)`: skip leading whitespace, optional sign, then
the maximal run of leading decimal digits; `none` models `NaN` (no digits). -/
def jsParseInt (s : String) : Option Int :=
  let cs := s.toList.dropWhile (fun c => c == ' ' || c == '\t' || c == '\n' || c == '\r')
  match cs with
  | '-' :: rest =>
    let ds := rest.takeWhile Char.isDigit
    if ds.isEmpty then none else some (-(digitsToNat ds : Int))
  | '+' :: rest =>
    let ds := rest.takeWhile Char.isDigit
    if ds.isEmpty then none else some ((digitsToNat ds : Int))
  | rest =>
    let ds := rest.takeWhile Char.isDigit
    if ds.isEmpty then none else some ((digitsToNat ds : Int))

/-- `parsePositiveInt(value, fallback)` of the CRM service: parse as integer,
return it when finite and strictly positive, else the fallback (`parseInt`
of an absent parameter is `NaN`, hence the fallback). -/
def parsePositiveInt (v : Option String) (fallback : Nat) : Nat :=
  match v with
  | none => fallback
  | some s =>
    match jsParseInt s with
    | some n => if 0 < n then n.toNat else fallback
    | none => fallback

/-- `isPositiveIntString`: the string matches `/^[1-9]\d*$/`. -/
def isPositiveIntString (s : String) : Bool :=
  match s.toList with
  | [] => false
  | c :: cs => ('1' ≤ c && c ≤ '9') && cs.all (fun d => '0' ≤ d && d ≤ '9')

/-- A whitespace character in the sense of JS `String.prototype.trim`. -/
def isWsChar (c : Char) : Bool :=
  c == ' ' || c == '\t' || c == '\n' || c == '\r'

/-- JS `String.prototype.trim`, modelled on the character list: drop leading
and trailing whitespace. -/
def jsTrim (s : String) : String :=
  ⟨((s.data.dropWhile isWsChar).reverse.dropWhile isWsChar).reverse⟩

/-- `isNonEmptyString`: a string whose trim is non-empty. -/
def isNonEmptyString (s : String) : Bool :=
  jsTrim s != ""

/-- JS truthiness of an optional string (`undefined` and `""` are falsy). -/
def truthy : Option String → Bool
  | none => false
  | some s => s != ""

/-- `needle` occurs as a contiguous run at the front of `hay`. -/
def leadsWith : List Char → List Char → Bool
  | [], _ => true
  | _ :: _, [] => false
  | a :: as, b :: bs => a == b && leadsWith as bs

/-- `hay.includes(needle)` on character lists. -/
def containsSub (needle : List Char) : List Char → Bool
  | [] => needle.isEmpty
  | b :: bs => leadsWith needle (b :: bs) || containsSub needle bs

/-- `hay.includes(needle)` on strings (JS `String.prototype.includes`). -/
def strIncludes (hay needle : String) : Bool :=
  containsSub needle.toList hay.toList

/-- JS `String.prototype.toLowerCase`, modelled as character-wise
lowercasing of the string's character list. -/
def strLower (s : String) : String := ⟨s.data.map Char.toLower⟩

/-! ## CRM service: `GET /clientes` (services/crm/index.js) -/

/-- The `q` predicate of `/clientes`: case-insensitive substring match of `q`
against `nombre` or `correo_electronico` (absent email behaves as `""`). -/
def clienteQPred (q : String) (c : Cliente) : Bool :=
  strIncludes (strLower c.nombre) (strLower q)
    || strIncludes (strLower (c.correo_electronico.getD "")) (strLower q)

/-- The `ubicacionId` predicate of `/clientes`: exact string equality against
`direccion` (absent `direccion` behaves as `""`). -/
def clienteUbicPred (uid : String) (c : Cliente) : Bool :=
  (c.direccion.getD "") == uid

/-- The filter chain of `/clientes` as written in the source: `if (q)` filter,
then `if (ubicacionId)` filter (truthiness guards as in JS). -/
def clientesFiltered (clients : List Cliente) (q ubicacionId : Option String) :
    List Cliente :=
  let f1 := if truthy q then clients.filter (clienteQPred (q.getD "")) else clients
  if truthy ubicacionId then f1.filter (clienteUbicPred (ubicacionId.getD "")) else f1

/-- The front-loaded parameter validation of `/clientes`, in source order:
`q` present but not a non-empty string; `ubicacionId` present but `""`;
`page` present but not a positive-integer string; `pageSize` present but not
a positive-integer string or parsing above 100.  Returns the 400 detail of
the first failing check. -/
def clientesParamError (q ubicacionId page pageSize : Option String) :
    Option String :=
  if (match q with | some s => !isNonEmptyString s | none => false) then
    some "Parámetro q inválido"
  else if ubicacionId == some "" then
    some "Parámetro ubicacionId inválido"
  else if (match page with | some s => !isPositiveIntString s | none => false) then
    some "Parámetro page inválido"
  else
    match pageSize with
    | some s =>
      if !isPositiveIntString s then some "Parámetro pageSize inválido"
      else
        match jsParseInt s with
        | some n =>
          if 100 < n then some "Parámetro pageSize inválido: máximo 100" else none
        | none => none
    | none => none

/-- First schema-invalid record of a list, in order (the validation loop of
the handlers: it stops at the first record the validator rejects). -/
def firstInvalid (val : α → Option Violation) : List α → Option Violation
  | [] => none
  | x :: xs =>
    match val x with
    | some v => some v
    | none => firstInvalid val xs

/-- 200 body of `GET /clientes`. -/
structure ClientesBody where
  total : Nat
  page : Nat
  pageSize : Nat
  data : List Cliente
  deriving Repr, DecidableEq

/-- `/clientes` after parameter validation and the page/pageSize computation:
load, filter, slice `[(page-1)*pageSize, (page-1)*pageSize + pageSize)`,
validation gate over the page slice, then the 200 body. -/
def clientesCore (valC : Cliente → Option Violation)
    (store : Except String (List Cliente))
    (q ubicacionId : Option String) (page pageSize : Nat) : HResp ClientesBody :=
  match store with
  | .error e => .err 500 ("Error leyendo datos: " ++ e)
  | .ok clients =>
    let filtered := clientesFiltered clients q ubicacionId
    let total := filtered.length
    let start := (page - 1) * pageSize
    let pageData := (filtered.drop start).take pageSize
    match firstInvalid valC pageData with
    | some v => .err 500 ("Lectura no conforme al schema: " ++ violMsg v)
    | none => .ok ⟨total, page, pageSize, pageData⟩

/-- The `GET /clientes` handler of `services/crm/index.js`: parameter
validation (400), `page`/`pageSize` computation with clamping and fallback
defaults 1 and 25, the (unreachable) pagination re-check, then the core. -/
def getClientes (valC : Cliente → Option Violation)
    (store : Except String (List Cliente))
    (q ubicacionId page pageSize : Option String) : HResp ClientesBody :=
  match clientesParamError q ubicacionId page pageSize with
  | some d => .err 400 d
  | none =>
    let pg := parsePositiveInt page 1
    let pageSizeRaw := parsePositiveInt pageSize 25
    let psz := min (max pageSizeRaw 1) 100
    if pg < 1 || psz < 1 || 100 < psz then .err 400 "Parámetros de paginación inválidos"
    else clientesCore valC store q ubicacionId pg psz

/-! ## IoT service: `GET /sensores` (services/iot/index.js) -/

/-- 200 body of `GET /sensores`. -/
structure SensoresBody where
  tipo : Option String
  ubicacionId : Option String
  total : Nat
  sensores : List Sensor
  deriving Repr, DecidableEq

/-- The filter chain of `/sensores`: exact equality on `tipo` then on
`ubicacion`, each applied only when the parameter is present (any present
string, the empty string included, is used verbatim). -/
def sensoresFiltered (sensores : List Sensor) (tipo ubicacionId : Option String) :
    List Sensor :=
  let r1 := match tipo with
    | some t => sensores.filter (fun s => s.tipo == t)
    | none => sensores
  match ubicacionId with
  | some u => r1.filter (fun s => s.ubicacion == u)
  | none => r1

/-- The `GET /sensores` handler of `services/iot/index.js`: no parameter
validation; load (500 on failure), filter, validate every result (500 on the
first non-conforming sensor), 200 with the whole filtered list. -/
def getSensores (valS : Sensor → Option Violation)
    (store : Except String (List Sensor))
    (tipo ubicacionId : Option String) : HResp SensoresBody :=
  match store with
  | .error e => .err 500 e
  | .ok sensores =>
    let results := sensoresFiltered sensores tipo ubicacionId
    match firstInvalid valS results with
    | some v => .err 500 ("Sensor no conforme al schema: " ++ violMsg v)
    | none => .ok ⟨tipo, ubicacionId, results.length, results⟩

/-! ## IoT service: `GET /lecturas` (services/iot/index.js) -/

/-- 200 body of `GET /lecturas` (the `params.limit` echo, `total` and the
returned slice). -/
structure LecturasBody where
  limit : Int
  total : Nat
  lecturas : List Lectura
  deriving Repr, DecidableEq

/-- `sensorUbicMap[sid]`: the `ubicacion` of the last sensor in the list with
id `sid` (object-assignment in the loop is last-wins), `none` when no sensor
has that id. -/
def sensorUbic (sensores : List Sensor) (sid : String) : Option String :=
  (sensores.reverse.find? (fun s => s.id == sid)).map (·.ubicacion)

/-- The `sensorId` predicate of `/lecturas`: exact equality on `id_sensor`. -/
def lecturaSidPred (sid : String) (l : Lectura) : Bool :=
  l.id_sensor == sid

/-- The `ubicacionId` predicate of `/lecturas`: the reading's sensor resolves
(through the sensor-id→ubicacion map) to the requested ubicacion. -/
def lecturaUbicPred (sensores : List Sensor) (uid : String) (l : Lectura) : Bool :=
  sensorUbic sensores l.id_sensor == some uid

/-- The temporal lower-bound loop of `/lecturas`: keep readings whose parsed
timestamp is `≥ from`; a reading whose timestamp does not parse aborts with
the 500 detail naming its `id_lectura`.  `none` bound passes all through. -/
def applyFrom (parseDate : String → Option Int) :
    Option Int → List Lectura → Except String (List Lectura)
  | none, ls => .ok ls
  | some _, [] => .ok []
  | some a, l :: ls =>
    match parseDate l.timestamp with
    | none => .error ("Timestamp inválido en lectura " ++ l.id_lectura)
    | some ts =>
      match applyFrom parseDate (some a) ls with
      | .error m => .error m
      | .ok rest => .ok (if a ≤ ts then l :: rest else rest)

/-- The temporal upper-bound loop of `/lecturas`: keep readings whose parsed
timestamp is `≤ to`; same 500 on an unparsable timestamp. -/
def applyTo (parseDate : String → Option Int) :
    Option Int → List Lectura → Except String (List Lectura)
  | none, ls => .ok ls
  | some _, [] => .ok []
  | some b, l :: ls =>
    match parseDate l.timestamp with
    | none => .error ("Timestamp inválido en lectura " ++ l.id_lectura)
    | some ts =>
      match applyTo parseDate (some b) ls with
      | .error m => .error m
      | .ok rest => .ok (if ts ≤ b then l :: rest else rest)

/-- Both temporal loops in source order (`from` then `to`). -/
def lecturasTemporal (parseDate : String → Option Int)
    (dtFrom dtTo : Option Int) (ls : List Lectura) : Except String (List Lectura) :=
  match applyFrom parseDate dtFrom ls with
  | .error m => .error m
  | .ok f => applyTo parseDate dtTo f

/-- `parseIsoDatetime` applied to an optional boundary parameter: absent is
no bound; a present value that does not parse is the 400 error
`Fecha ISO inválida: <value>`. -/
def parseOptDate (parseDate : String → Option Int) :
    Option String → Except String (Option Int)
  | none => .ok none
  | some s =>
    match parseDate s with
    | some t => .ok (some t)
    | none => .error ("Fecha ISO inválida: " ++ s)

/-- `from > to` when both bounds are present. -/
def rangeBad : Option Int → Option Int → Bool
  | some a, some b => b < a
  | _, _ => false

/-- The non-temporal filters of `/lecturas` as written: `sensorId` filter when
present, then `ubicacionId` filter (through the sensor map) when present. -/
def lecturasNT (sensores : List Sensor) (lecturas : List Lectura)
    (sensorId ubicacionId : Option String) : List Lectura :=
  let f1 := match sensorId with
    | some sid => lecturas.filter (lecturaSidPred sid)
    | none => lecturas
  match ubicacionId with
  | some uid => f1.filter (lecturaUbicPred sensores uid)
  | none => f1

/-- `/lecturas` after the `limit` check and a successful load: non-temporal
filters, `from`/`to` parsing (400), `from > to` check (400), temporal loops
(500 on corrupt timestamps), `total` pre-slice, `slice(0, limit)`, validation
gate over the slice (500), then the 200 body. -/
def lecturasAfterLoad (valL : Lectura → Option Violation)
    (parseDate : String → Option Int)
    (sensores : List Sensor) (lecturas : List Lectura)
    (sensorId ubicacionId fromQ toQ : Option String) (limit : Int) :
    HResp LecturasBody :=
  let f2 := lecturasNT sensores lecturas sensorId ubicacionId
  match parseOptDate parseDate fromQ with
  | .error m => .err 400 m
  | .ok dtFrom =>
    match parseOptDate parseDate toQ with
    | .error m => .err 400 m
    | .ok dtTo =>
      if rangeBad dtFrom dtTo then .err 400 "'from' no puede ser mayor que 'to'"
      else
        match lecturasTemporal parseDate dtFrom dtTo f2 with
        | .error m => .err 500 m
        | .ok f4 =>
          let total := f4.length
          let toReturn := f4.take limit.toNat
          match firstInvalid valL toReturn with
          | some v => .err 500 ("Lectura no conforme al schema: " ++ violMsg v)
          | none => .ok ⟨limit, total, toReturn⟩

/-- The effective `limit` of `/lecturas`:
`Number.parseInt(String(req.query.limit ?? "100"), 10)`, falling back to 100
when the parse is `NaN` (`Number.isFinite` fails). -/
def limitOf (limitQ : Option String) : Int :=
  (jsParseInt (limitQ.getD "100")).getD 100

/-- The `GET /lecturas` handler of `services/iot/index.js`: `limit` parsing
with the silent `NaN → 100` fallback, the bounds check (400), the load (the
read error's message as a 500), then the rest of the pipeline. -/
def getLecturas (valL : Lectura → Option Violation)
    (parseDate : String → Option Int)
    (store : Except String (List Sensor × List Lectura))
    (sensorId ubicacionId fromQ toQ limitQ : Option String) : HResp LecturasBody :=
  let limit : Int := limitOf limitQ
  if limit ≤ 0 || 1000 < limit then
    .err 400 "'limit' debe ser entero entre 1 y 1000"
  else
    match store with
    | .error e => .err 500 e
    | .ok (sensores, lecturas) =>
      lecturasAfterLoad valL parseDate sensores lecturas
        sensorId ubicacionId fromQ toQ limit

/-! ## Federation layer (API Unificada) — detail-by-name resolution

The federation service's code (`services/api-unificada/main.py`) is not part
of `src/`; only its README is.  The resolver below is therefore modelled from
the spec. -/

/-- Federation detail-by-name outcome: the matched party, or the 404 detail. -/
inductive DetalleResp where
  | found (p : Cliente)
  | notFound (detail : String)
  deriving Repr, DecidableEq

/-- Modelled from the spec: the federation detail-by-name resolver
(`services/api-unificada/main.py`, absent from `src/`) locates the party
whose `nombre` matches the path parameter case-insensitively and exactly
(never partially); on no match it answers 404 with a message embedding the
requested name. -/
def resolveDetalleByName (parties : List Cliente) (nameParam : String) :
    DetalleResp :=
  match parties.find? (fun p => strLower p.nombre == strLower nameParam) with
  | some p => .found p
  | none => .notFound ("No encontrado: " ++ nameParam)

/-! ## Spec-modelled naive single-pass filters (for the order-equivalence
claim) -/

/-- Modelled from the spec: a naive single pass over the party collection
with the conjunction of the requested predicates. -/
def clientesNaive (clients : List Cliente) (q ubicacionId : Option String) :
    List Cliente :=
  clients.filter (fun c =>
    (!truthy q || clienteQPred (q.getD "") c)
      && (!truthy ubicacionId || clienteUbicPred (ubicacionId.getD "") c))

/-- The party filter chain applied in the reversed order (`ubicacionId`
before `q`). -/
def clientesFilteredRev (clients : List Cliente) (q ubicacionId : Option String) :
    List Cliente :=
  let f1 := if truthy ubicacionId then
      clients.filter (clienteUbicPred (ubicacionId.getD "")) else clients
  if truthy q then f1.filter (clienteQPred (q.getD "")) else f1

/-- Lower-bound predicate of one reading (an unparsable timestamp never
matches; under the no-error hypothesis of the equivalence claim this case
does not arise). -/
def lecturaFromPred (parseDate : String → Option Int) :
    Option Int → Lectura → Bool
  | none, _ => true
  | some a, l =>
    match parseDate l.timestamp with
    | some ts => a ≤ ts
    | none => false

/-- Upper-bound predicate of one reading. -/
def lecturaToPred (parseDate : String → Option Int) :
    Option Int → Lectura → Bool
  | none, _ => true
  | some b, l =>
    match parseDate l.timestamp with
    | some ts => ts ≤ b
    | none => false

/-- The `sensorId` predicate for an optional parameter (absent is a no-op). -/
def optSidPred (sensorId : Option String) (l : Lectura) : Bool :=
  match sensorId with
  | some sid => lecturaSidPred sid l
  | none => true

/-- The `ubicacionId` predicate for an optional parameter (absent is a
no-op). -/
def optUbicPred (sensores : List Sensor) (ubicacionId : Option String)
    (l : Lectura) : Bool :=
  match ubicacionId with
  | some uid => lecturaUbicPred sensores uid l
  | none => true

/-- Modelled from the spec: a naive single pass over the readings with the
conjunction of all requested predicates. -/
def lecturasNaive (parseDate : String → Option Int) (sensores : List Sensor)
    (lecturas : List Lectura) (sensorId ubicacionId : Option String)
    (dtFrom dtTo : Option Int) : List Lectura :=
  lecturas.filter (fun l =>
    optSidPred sensorId l
      && optUbicPred sensores ubicacionId l
      && lecturaFromPred parseDate dtFrom l
      && lecturaToPred parseDate dtTo l)

/-! ## Helper lemmas -/

theorem firstInvalid_eq_none {α : Type} (val : α → Option Violation)
    (l : List α) : firstInvalid val l = none ↔ ∀ x ∈ l, val x = none := by
  induction l with
  | nil => simp [firstInvalid]
  | cons x xs ih =>
    cases h : val x with
    | some v => simp [firstInvalid, h]
    | none => simp [firstInvalid, h, ih]

theorem parsePositiveInt_pos (v : Option String) {fb : Nat} (hfb : 0 < fb) :
    0 < parsePositiveInt v fb := by
  cases v with
  | none => exact hfb
  | some s =>
    simp only [parsePositiveInt]
    cases h : jsParseInt s with
    | none => exact hfb
    | some n =>
      by_cases hn : 0 < n
      · simp only [if_pos hn]
        omega
      · simp only [if_neg hn]
        exact hfb

theorem getClientes_eq_core (valC : Cliente → Option Violation)
    (store : Except String (List Cliente)) (q u p ps : Option String)
    (hpe : clientesParamError q u p ps = none) :
    getClientes valC store q u p ps =
      clientesCore valC store q u (parsePositiveInt p 1)
        (min (max (parsePositiveInt ps 25) 1) 100) := by
  unfold getClientes
  rw [hpe]
  have h1 : 0 < parsePositiveInt p 1 := parsePositiveInt_pos p (by omega)
  have h2 : 1 ≤ min (max (parsePositiveInt ps 25) 1) 100 := by omega
  have h3 : min (max (parsePositiveInt ps 25) 1) 100 ≤ 100 := by omega
  simp only []
  rw [if_neg]
  simp only [Bool.or_eq_true, decide_eq_true_eq]
  omega

theorem clientesCore_ok_inv {valC : Cliente → Option Violation}
    {cs : List Cliente} {q u : Option String} {pg psz : Nat}
    {body : ClientesBody}
    (h : clientesCore valC (.ok cs) q u pg psz = .ok body) :
    body = ⟨(clientesFiltered cs q u).length, pg, psz,
        ((clientesFiltered cs q u).drop ((pg - 1) * psz)).take psz⟩ ∧
      firstInvalid valC body.data = none := by
  simp only [clientesCore] at h
  split at h
  · exact absurd h (by simp)
  · rename_i hfi
    have hb := (HResp.ok.inj h).symm
    subst hb
    exact ⟨rfl, hfi⟩

theorem clientesCore_invalid {valC : Cliente → Option Violation}
    {cs : List Cliente} {q u : Option String} {pg psz : Nat} {v : Violation}
    (hfi : firstInvalid valC
        (((clientesFiltered cs q u).drop ((pg - 1) * psz)).take psz) = some v) :
    clientesCore valC (.ok cs) q u pg psz =
      .err 500 ("Lectura no conforme al schema: " ++ violMsg v) := by
  simp only [clientesCore]
  rw [hfi]

theorem getLecturas_eq_afterLoad (valL : Lectura → Option Violation)
    (pd : String → Option Int) (ss : List Sensor) (ls : List Lectura)
    (sid uid fq tq lq : Option String)
    (h1 : 0 < limitOf lq) (h2 : limitOf lq ≤ 1000) :
    getLecturas valL pd (.ok (ss, ls)) sid uid fq tq lq =
      lecturasAfterLoad valL pd ss ls sid uid fq tq (limitOf lq) := by
  have hc : ¬(limitOf lq ≤ 0 ∨ 1000 < limitOf lq) := by omega
  simp only [getLecturas]
  rw [if_neg (by simp only [Bool.or_eq_true, decide_eq_true_eq]; exact hc)]

theorem getLecturas_badLimit (valL : Lectura → Option Violation)
    (pd : String → Option Int) (store : Except String (List Sensor × List Lectura))
    (sid uid fq tq lq : Option String)
    (h : limitOf lq ≤ 0 ∨ 1000 < limitOf lq) :
    getLecturas valL pd store sid uid fq tq lq =
      .err 400 "'limit' debe ser entero entre 1 y 1000" := by
  simp only [getLecturas]
  rw [if_pos (by simp only [Bool.or_eq_true, decide_eq_true_eq]; exact h)]

theorem lecturasAfterLoad_ok_inv {valL : Lectura → Option Violation}
    {pd : String → Option Int} {ss : List Sensor} {ls : List Lectura}
    {sid uid fq tq : Option String} {limit : Int} {body : LecturasBody}
    (h : lecturasAfterLoad valL pd ss ls sid uid fq tq limit = .ok body) :
    ∃ dtF dtT f4,
      parseOptDate pd fq = .ok dtF ∧ parseOptDate pd tq = .ok dtT ∧
      rangeBad dtF dtT = false ∧
      lecturasTemporal pd dtF dtT (lecturasNT ss ls sid uid) = .ok f4 ∧
      body = ⟨limit, f4.length, f4.take limit.toNat⟩ ∧
      firstInvalid valL body.lecturas = none := by
  simp only [lecturasAfterLoad] at h
  split at h
  · exact absurd h (by simp)
  · rename_i dtF hF
    split at h
    · exact absurd h (by simp)
    · rename_i dtT hT
      split at h
      · exact absurd h (by simp)
      · rename_i hrb
        split at h
        · exact absurd h (by simp)
        · rename_i f4 htemp
          split at h
          · exact absurd h (by simp)
          · rename_i hfi
            have hb := (HResp.ok.inj h).symm
            subst hb
            exact ⟨dtF, dtT, f4, hF, hT, by simpa using hrb, htemp, rfl, hfi⟩

theorem applyFrom_ok {pd : String → Option Int} {dtF : Option Int}
    {ls r : List Lectura} (h : applyFrom pd dtF ls = .ok r) :
    r = ls.filter (lecturaFromPred pd dtF) := by
  cases dtF with
  | none =>
    simp only [applyFrom] at h
    have hr := (Except.ok.inj h).symm
    subst hr
    rw [List.filter_eq_self.mpr]
    intro l _
    rfl
  | some a =>
    induction ls generalizing r with
    | nil =>
      simp only [applyFrom] at h
      have hr := (Except.ok.inj h).symm
      subst hr
      rfl
    | cons l ls ih =>
      simp only [applyFrom] at h
      cases hts : pd l.timestamp with
      | none => rw [hts] at h; exact absurd h (by simp)
      | some ts =>
        rw [hts] at h
        cases hrec : applyFrom pd (some a) ls with
        | error m => rw [hrec] at h; exact absurd h (by simp)
        | ok rest =>
          rw [hrec] at h
          have hr := (Except.ok.inj h).symm
          subst hr
          by_cases hle : a ≤ ts
          · simp [List.filter_cons, lecturaFromPred, hts, hle, ih hrec]
          · simp [List.filter_cons, lecturaFromPred, hts, hle, ih hrec]

theorem applyTo_ok {pd : String → Option Int} {dtT : Option Int}
    {ls r : List Lectura} (h : applyTo pd dtT ls = .ok r) :
    r = ls.filter (lecturaToPred pd dtT) := by
  cases dtT with
  | none =>
    simp only [applyTo] at h
    have hr := (Except.ok.inj h).symm
    subst hr
    rw [List.filter_eq_self.mpr]
    intro l _
    rfl
  | some b =>
    induction ls generalizing r with
    | nil =>
      simp only [applyTo] at h
      have hr := (Except.ok.inj h).symm
      subst hr
      rfl
    | cons l ls ih =>
      simp only [applyTo] at h
      cases hts : pd l.timestamp with
      | none => rw [hts] at h; exact absurd h (by simp)
      | some ts =>
        rw [hts] at h
        cases hrec : applyTo pd (some b) ls with
        | error m => rw [hrec] at h; exact absurd h (by simp)
        | ok rest =>
          rw [hrec] at h
          have hr := (Except.ok.inj h).symm
          subst hr
          by_cases hle : ts ≤ b
          · simp [List.filter_cons, lecturaToPred, hts, hle, ih hrec]
          · simp [List.filter_cons, lecturaToPred, hts, hle, ih hrec]

theorem applyFrom_error_of_bad {pd : String → Option Int} {a : Int}
    {ls : List Lectura} {l0 : Lectura}
    (h : ls.find? (fun l => (pd l.timestamp).isNone) = some l0) :
    applyFrom pd (some a) ls =
      .error ("Timestamp inválido en lectura " ++ l0.id_lectura) := by
  induction ls with
  | nil => simp at h
  | cons l ls ih =>
    rw [List.find?_cons] at h
    cases hts : pd l.timestamp with
    | none =>
      rw [hts] at h
      simp only [Option.isNone_none, cond_true] at h
      have := Option.some.inj h
      subst this
      simp [applyFrom, hts]
    | some ts =>
      rw [hts] at h
      simp only [Option.isNone_some, cond_false] at h
      simp [applyFrom, hts, ih h]

theorem applyTo_error_of_bad {pd : String → Option Int} {b : Int}
    {ls : List Lectura} {l0 : Lectura}
    (h : ls.find? (fun l => (pd l.timestamp).isNone) = some l0) :
    applyTo pd (some b) ls =
      .error ("Timestamp inválido en lectura " ++ l0.id_lectura) := by
  induction ls with
  | nil => simp at h
  | cons l ls ih =>
    rw [List.find?_cons] at h
    cases hts : pd l.timestamp with
    | none =>
      rw [hts] at h
      simp only [Option.isNone_none, cond_true] at h
      have := Option.some.inj h
      subst this
      simp [applyTo, hts]
    | some ts =>
      rw [hts] at h
      simp only [Option.isNone_some, cond_false] at h
      simp [applyTo, hts, ih h]

theorem lecturasTemporal_error_of_bad {pd : String → Option Int}
    {dtF dtT : Option Int} {ls : List Lectura} {l0 : Lectura}
    (hsome : dtF ≠ none ∨ dtT ≠ none)
    (h : ls.find? (fun l => (pd l.timestamp).isNone) = some l0) :
    lecturasTemporal pd dtF dtT ls =
      .error ("Timestamp inválido en lectura " ++ l0.id_lectura) := by
  cases dtF with
  | some a => simp [lecturasTemporal, applyFrom_error_of_bad h]
  | none =>
    cases dtT with
    | none => simp at hsome
    | some b =>
      simp only [lecturasTemporal, applyFrom]
      exact applyTo_error_of_bad h

theorem getClientes_ok_param {valC : Cliente → Option Violation}
    {store : Except String (List Cliente)} {q u p ps : Option String}
    {body : ClientesBody} (h : getClientes valC store q u p ps = .ok body) :
    clientesParamError q u p ps = none := by
  cases hpe : clientesParamError q u p ps with
  | none => rfl
  | some d =>
    rw [getClientes, hpe] at h
    exact absurd h (by simp)

theorem getClientes_ok_inv {valC : Cliente → Option Violation}
    {store : Except String (List Cliente)} {q u p ps : Option String}
    {body : ClientesBody} (h : getClientes valC store q u p ps = .ok body) :
    ∃ cs, store = .ok cs ∧
      body = ⟨(clientesFiltered cs q u).length, parsePositiveInt p 1,
          min (max (parsePositiveInt ps 25) 1) 100,
          ((clientesFiltered cs q u).drop
              ((parsePositiveInt p 1 - 1) * min (max (parsePositiveInt ps 25) 1) 100)).take
            (min (max (parsePositiveInt ps 25) 1) 100)⟩ ∧
      firstInvalid valC body.data = none := by
  have hpe := getClientes_ok_param h
  rw [getClientes_eq_core valC store q u p ps hpe] at h
  cases store with
  | error e => exact absurd h (by simp [clientesCore])
  | ok cs =>
    obtain ⟨hb, hfi⟩ := clientesCore_ok_inv h
    exact ⟨cs, rfl, hb, hfi⟩

theorem bool_aci (x y z : Bool) : ((z && y) && x) = ((x && y) && z) := by
  cases x <;> cases y <;> cases z <;> rfl

theorem clientesFiltered_eq_naive (clients : List Cliente)
    (q u : Option String) :
    clientesFiltered clients q u = clientesNaive clients q u := by
  cases hq : truthy q <;> cases hu : truthy u <;>
    simp [clientesFiltered, clientesNaive, hq, hu, List.filter_filter] <;>
    exact List.filter_congr (fun c _ => Bool.and_comm _ _)

theorem clientesFiltered_comm (clients : List Cliente) (q u : Option String) :
    clientesFilteredRev clients q u = clientesFiltered clients q u := by
  cases hq : truthy q <;> cases hu : truthy u <;>
    simp [clientesFiltered, clientesFilteredRev, hq, hu,
      List.filter_filter] <;>
    exact List.filter_congr (fun c _ => Bool.and_comm _ _)

theorem lecturasNT_eq_filter (ss : List Sensor) (ls : List Lectura)
    (sid uid : Option String) :
    lecturasNT ss ls sid uid =
      ls.filter (fun l => optSidPred sid l && optUbicPred ss uid l) := by
  cases sid <;> cases uid <;>
    simp [lecturasNT, optSidPred, optUbicPred, List.filter_filter] <;>
    exact List.filter_congr (fun l _ => Bool.and_comm _ _)

theorem lecturasTemporal_ok_eq_naive {pd : String → Option Int}
    {ss : List Sensor} {ls : List Lectura} {sid uid : Option String}
    {dtF dtT : Option Int} {f4 : List Lectura}
    (h : lecturasTemporal pd dtF dtT (lecturasNT ss ls sid uid) = .ok f4) :
    f4 = lecturasNaive pd ss ls sid uid dtF dtT := by
  rw [lecturasTemporal] at h
  cases hF : applyFrom pd dtF (lecturasNT ss ls sid uid) with
  | error m => rw [hF] at h; exact absurd h (by simp)
  | ok f3 =>
    rw [hF] at h
    have h3 := applyFrom_ok hF
    have h4 := applyTo_ok h
    subst h3
    subst h4
    rw [lecturasNT_eq_filter, List.filter_filter, List.filter_filter,
      lecturasNaive]
    exact List.filter_congr (fun l _ => bool_aci _ _ _)

theorem getLecturas_storeError (valL : Lectura → Option Violation)
    (pd : String → Option Int) (e : String) (sid uid fq tq lq : Option String)
    (h1 : 0 < limitOf lq) (h2 : limitOf lq ≤ 1000) :
    getLecturas valL pd (.error e) sid uid fq tq lq = .err 500 e := by
  have hc : ¬(limitOf lq ≤ 0 ∨ 1000 < limitOf lq) := by omega
  simp only [getLecturas]
  rw [if_neg (by simp only [Bool.or_eq_true, decide_eq_true_eq]; exact hc)]

theorem getLecturas_ok_inv {valL : Lectura → Option Violation}
    {pd : String → Option Int}
    {store : Except String (List Sensor × List Lectura)}
    {sid uid fq tq lq : Option String} {body : LecturasBody}
    (h : getLecturas valL pd store sid uid fq tq lq = .ok body) :
    ∃ ss ls, store = .ok (ss, ls) ∧ 0 < limitOf lq ∧ limitOf lq ≤ 1000 ∧
      lecturasAfterLoad valL pd ss ls sid uid fq tq (limitOf lq) = .ok body := by
  by_cases hl : limitOf lq ≤ 0 ∨ 1000 < limitOf lq
  · rw [getLecturas_badLimit _ _ _ _ _ _ _ _ hl] at h
    exact absurd h (by simp)
  · push_neg at hl
    obtain ⟨h1, h2⟩ := hl
    cases store with
    | error e =>
      rw [getLecturas_storeError _ _ _ _ _ _ _ _ (by omega) h2] at h
      exact absurd h (by simp)
    | ok pair =>
      obtain ⟨ss, ls⟩ := pair
      rw [getLecturas_eq_afterLoad _ _ _ _ _ _ _ _ _ (by omega) h2] at h
      exact ⟨ss, ls, rfl, by omega, h2, h⟩

/-! ## Shared concrete fixtures for witnesses and counterexamples -/

/-- A validator that accepts every client record. -/
def valCNone : Cliente → Option Violation := fun _ => none

/-- A validator that accepts every reading record. -/
def valLNone : Lectura → Option Violation := fun _ => none

/-- A validator that accepts every sensor record. -/
def valSNone : Sensor → Option Violation := fun _ => none

/-- A date parser on which nothing parses (every value is an invalid date). -/
def pdNone : String → Option Int := fun _ => none

/-- A date parser that maps every string to its length (everything parses). -/
def pdLen : String → Option Int := fun s => some (s.length : Int)

/-- A date parser on which exactly the empty string fails to parse. -/
def pdOptLen : String → Option Int :=
  fun s => if s == "" then none else some (s.length : Int)

/-- A sample client record. -/
def sampleCliente : Cliente := ⟨"c1", "Acme S.L.", some "a@b.com", some "u1"⟩

/-- A sample sensor record. -/
def sampleSensor : Sensor := ⟨"S1", "temperatura", "u1"⟩

/-- A sample reading record. -/
def sampleLectura : Lectura := ⟨"L1", "S1", 20, "C", "2025-10-27T10:00:00Z"⟩

/-- A reading whose timestamp is unparsable under `pdOptLen`. -/
def badTsLectura : Lectura := ⟨"L9", "S1", 21, "C", ""⟩

/-! ## Claims -/

/-- C2: for every 200 response of `GET /clientes`, the length of the returned
`data` equals `min(pageSize, max(0, total - (page-1)*pageSize))` (the ℕ
truncated subtraction supplies the `max 0`), and the page is
`slice(start, start + pageSize)` with `start = (page-1)*pageSize` over the
filtered collection. -/
theorem c2_page_length (valC : Cliente → Option Violation)
    (store : Except String (List Cliente)) (q u p ps : Option String)
    (body : ClientesBody) (h : getClientes valC store q u p ps = .ok body) :
    body.data.length =
      min body.pageSize (body.total - (body.page - 1) * body.pageSize)
    ∧ ∀ cs, store = .ok cs →
        body.data = ((clientesFiltered cs q u).drop
            ((body.page - 1) * body.pageSize)).take body.pageSize := by
  obtain ⟨cs, hstore, hb, hfi⟩ := getClientes_ok_inv h
  subst hb
  refine ⟨by simp, ?_⟩
  intro cs2 h2
  rw [hstore] at h2
  cases Except.ok.inj h2
  rfl

/-- Witness for C2 at a concrete request. -/
theorem c2_page_length_witness :
    (⟨1, 1, 25, [sampleCliente]⟩ : ClientesBody).data.length =
      min 25 (1 - (1 - 1) * 25) :=
  (c2_page_length valCNone (.ok [sampleCliente]) none none none none
    ⟨1, 1, 25, [sampleCliente]⟩ (by rfl)).1

/-- C3: the `total` field of every 200 response of `GET /clientes` and
`GET /lecturas` equals the size of the filtered collection before the
page/limit slice is taken. -/
theorem c3_total_prefiltered (valC : Cliente → Option Violation)
    (valL : Lectura → Option Violation) (pd : String → Option Int)
    (storeC : Except String (List Cliente))
    (storeI : Except String (List Sensor × List Lectura))
    (q u p ps sid uid fq tq lq : Option String) :
    (∀ body cs, getClientes valC storeC q u p ps = .ok body →
      storeC = .ok cs → body.total = (clientesFiltered cs q u).length)
    ∧ (∀ body ss ls, getLecturas valL pd storeI sid uid fq tq lq = .ok body →
      storeI = .ok (ss, ls) →
      ∃ dtF dtT f4, parseOptDate pd fq = .ok dtF ∧
        parseOptDate pd tq = .ok dtT ∧
        lecturasTemporal pd dtF dtT (lecturasNT ss ls sid uid) = .ok f4 ∧
        body.total = f4.length ∧
        body.lecturas = f4.take (limitOf lq).toNat) := by
  constructor
  · intro body cs h hc
    obtain ⟨cs2, hstore, hb, hfi⟩ := getClientes_ok_inv h
    rw [hstore] at hc
    cases Except.ok.inj hc
    subst hb
    rfl
  · intro body ss ls h hs
    obtain ⟨ss2, ls2, hstore, h1, h2, hAL⟩ := getLecturas_ok_inv h
    rw [hstore] at hs
    have hpair := Except.ok.inj hs
    obtain ⟨hss, hls⟩ := Prod.mk.injEq .. ▸ hpair
    subst hss
    subst hls
    obtain ⟨dtF, dtT, f4, hF, hT, hrb, htemp, hb, hfi⟩ :=
      lecturasAfterLoad_ok_inv hAL
    subst hb
    exact ⟨dtF, dtT, f4, hF, hT, htemp, rfl, rfl⟩

/-- Witness for C3 at a concrete request on both endpoints. -/
theorem c3_total_prefiltered_witness :
    (⟨1, 1, 25, [sampleCliente]⟩ : ClientesBody).total =
      (clientesFiltered [sampleCliente] none none).length
    ∧ ∃ dtF dtT f4, parseOptDate pdLen none = .ok dtF ∧
        parseOptDate pdLen none = .ok dtT ∧
        lecturasTemporal pdLen dtF dtT
            (lecturasNT [sampleSensor] [sampleLectura] none none) = .ok f4 ∧
        (⟨100, 1, [sampleLectura]⟩ : LecturasBody).total = f4.length ∧
        (⟨100, 1, [sampleLectura]⟩ : LecturasBody).lecturas =
          f4.take (limitOf none).toNat := by
  have h := c3_total_prefiltered valCNone valLNone pdLen
    (.ok [sampleCliente]) (.ok ([sampleSensor], [sampleLectura]))
    none none none none none none none none none
  exact ⟨h.1 ⟨1, 1, 25, [sampleCliente]⟩ [sampleCliente] (by rfl) rfl,
    h.2 ⟨100, 1, [sampleLectura]⟩ [sampleSensor] [sampleLectura] (by rfl) rfl⟩

theorem parseOptDate_some_ne {pd : String → Option Int} {s : String}
    {dt : Option Int} (h : parseOptDate pd (some s) = .ok dt) : dt ≠ none := by
  simp only [parseOptDate] at h
  cases hp : pd s with
  | none => rw [hp] at h; exact absurd h (by simp)
  | some t =>
    rw [hp] at h
    cases Except.ok.inj h
    simp

/-- C5: on `GET /lecturas`, whenever `from` and `to` are both present and
both parse and `from > to`, the response is a 400 (for any backing data and
any `limit` value — an out-of-range `limit` also yields a 400, never a 200
with an empty result set). -/
theorem c5_from_after_to (valL : Lectura → Option Violation)
    (pd : String → Option Int) (ss : List Sensor) (ls : List Lectura)
    (sid uid lq : Option String) (f t : String) (a b : Int)
    (hf : pd f = some a) (ht : pd t = some b) (hab : b < a) :
    ∃ d, getLecturas valL pd (.ok (ss, ls)) sid uid (some f) (some t) lq =
      .err 400 d := by
  by_cases hl : limitOf lq ≤ 0 ∨ 1000 < limitOf lq
  · exact ⟨_, getLecturas_badLimit _ _ _ _ _ _ _ _ hl⟩
  · push_neg at hl
    rw [getLecturas_eq_afterLoad _ _ _ _ _ _ _ _ _ (by omega) (by omega)]
    exact ⟨"'from' no puede ser mayor que 'to'",
      by simp [lecturasAfterLoad, parseOptDate, hf, ht, rangeBad, hab]⟩

/-- Witness for C5: `from` two characters, `to` one, under the
length-valued date parser. -/
theorem c5_from_after_to_witness :
    ∃ d, getLecturas valLNone pdLen (.ok ([sampleSensor], [sampleLectura]))
      none none (some "zz") (some "z") none = .err 400 d :=
  c5_from_after_to valLNone pdLen [sampleSensor] [sampleLectura] none none
    none "zz" "z" 2 1 (by rfl) (by rfl) (by norm_num)

/-- C6: on `GET /lecturas`, when `from` or `to` is given (and the request
reaches the temporal stage) and some reading surviving the `sensorId` and
`ubicacionId` filters has an unparsable timestamp, the response is a 500
(not a 400) whose message names the offending reading's id. -/
theorem c6_corrupt_timestamp_500 (valL : Lectura → Option Violation)
    (pd : String → Option Int) (ss : List Sensor) (ls : List Lectura)
    (sid uid fq tq lq : Option String) (dtF dtT : Option Int)
    (h1 : 0 < limitOf lq) (h2 : limitOf lq ≤ 1000)
    (hF : parseOptDate pd fq = .ok dtF) (hT : parseOptDate pd tq = .ok dtT)
    (hgiven : fq ≠ none ∨ tq ≠ none)
    (hrb : rangeBad dtF dtT = false)
    (hbad : ∃ l ∈ lecturasNT ss ls sid uid, pd l.timestamp = none) :
    ∃ l0 ∈ lecturasNT ss ls sid uid, pd l0.timestamp = none ∧
      getLecturas valL pd (.ok (ss, ls)) sid uid fq tq lq =
        .err 500 ("Timestamp inválido en lectura " ++ l0.id_lectura) := by
  obtain ⟨l, hl, hlp⟩ := hbad
  have hfind : ((lecturasNT ss ls sid uid).find?
      (fun l => (pd l.timestamp).isNone)).isSome := by
    rw [List.find?_isSome]
    exact ⟨l, hl, by simp [hlp]⟩
  obtain ⟨l0, hl0⟩ := Option.isSome_iff_exists.mp hfind
  have hl0mem := List.mem_of_find?_eq_some hl0
  have hl0p := List.find?_some hl0
  have hsome : dtF ≠ none ∨ dtT ≠ none := by
    cases hgiven with
    | inl hfq =>
      obtain ⟨f, rfl⟩ := Option.ne_none_iff_exists'.mp hfq
      exact Or.inl (parseOptDate_some_ne hF)
    | inr htq =>
      obtain ⟨t, rfl⟩ := Option.ne_none_iff_exists'.mp htq
      exact Or.inr (parseOptDate_some_ne hT)
  refine ⟨l0, hl0mem, by simpa using hl0p, ?_⟩
  rw [getLecturas_eq_afterLoad _ _ _ _ _ _ _ _ _ h1 h2]
  have htemp := lecturasTemporal_error_of_bad hsome hl0
  simp [lecturasAfterLoad, hF, hT, hrb, htemp]

/-- Witness for C6: one reading with an unparsable (empty) timestamp and a
`from` bound present. -/
theorem c6_corrupt_timestamp_500_witness :
    ∃ l0 ∈ lecturasNT [sampleSensor] [badTsLectura] none none,
      pdOptLen l0.timestamp = none ∧
      getLecturas valLNone pdOptLen (.ok ([sampleSensor], [badTsLectura]))
          none none (some "zz") none none =
        .err 500 ("Timestamp inválido en lectura " ++ l0.id_lectura) :=
  c6_corrupt_timestamp_500 valLNone pdOptLen [sampleSensor] [badTsLectura]
    none none (some "zz") none none (some 2) none
    (by decide) (by decide) (by rfl) (by rfl) (Or.inl (by simp))
    (by rfl) ⟨badTsLectura, by simp [lecturasNT], by rfl⟩

/-- C7: for parameter assignments on which no error branch is taken, the
staged filter chains produce exactly the set a naive single pass with the
conjunction of the requested predicates produces, and the two party filters
commute. -/
theorem c7_filter_order (clients : List Cliente) (q u : Option String)
    (pd : String → Option Int) (ss : List Sensor) (ls : List Lectura)
    (sid uid : Option String) (dtF dtT : Option Int) :
    clientesFiltered clients q u = clientesNaive clients q u
    ∧ clientesFilteredRev clients q u = clientesFiltered clients q u
    ∧ ∀ f4, lecturasTemporal pd dtF dtT (lecturasNT ss ls sid uid) = .ok f4 →
        f4 = lecturasNaive pd ss ls sid uid dtF dtT :=
  ⟨clientesFiltered_eq_naive clients q u,
   clientesFiltered_comm clients q u,
   fun _ h => lecturasTemporal_ok_eq_naive h⟩

/-- Witness for C7's reading-side equivalence at a concrete dataset. -/
theorem c7_filter_order_witness :
    lecturasTemporal pdLen (some 1) (some 100)
        (lecturasNT [sampleSensor] [sampleLectura] none none) =
      .ok [sampleLectura]
    ∧ [sampleLectura] =
        lecturasNaive pdLen [sampleSensor] [sampleLectura] none none
          (some 1) (some 100) :=
  ⟨by rfl,
   (c7_filter_order [] none none pdLen [sampleSensor] [sampleLectura]
      none none (some 1) (some 100)).2.2 [sampleLectura] (by rfl)⟩

theorem clientesCore_no_filters (valC : Cliente → Option Violation)
    (cs : List Cliente) (pg psz : Nat)
    (hv : firstInvalid valC ((cs.drop ((pg - 1) * psz)).take psz) = none) :
    clientesCore valC (.ok cs) none none pg psz =
      .ok ⟨cs.length, pg, psz, (cs.drop ((pg - 1) * psz)).take psz⟩ := by
  simp only [clientesCore, clientesFiltered, truthy, Bool.false_eq_true,
    if_false]
  rw [hv]

theorem lecturasAfterLoad_no_filters (valL : Lectura → Option Violation)
    (pd : String → Option Int) (ss : List Sensor) (ls : List Lectura)
    (limit : Int)
    (hv : firstInvalid valL (ls.take limit.toNat) = none) :
    lecturasAfterLoad valL pd ss ls none none none none limit =
      .ok ⟨limit, ls.length, ls.take limit.toNat⟩ := by
  simp only [lecturasAfterLoad, lecturasNT, parseOptDate, rangeBad,
    lecturasTemporal, applyFrom, applyTo, Bool.false_eq_true, if_false]
  rw [hv]

/-- C8: boundary behavior of the pagination bounds, for any store and any
validator: `pageSize=101` → 400 and `pageSize=100` → 200 on `/clientes`
(defaults page 1 and pageSize 25); `limit=0` → 400, `limit=1001` → 400 and
`limit=1000` → 200 on `/lecturas` (default limit 100). -/
theorem c8_bounds (valC : Cliente → Option Violation)
    (valL : Lectura → Option Violation) (pd : String → Option Int)
    (storeC : Except String (List Cliente))
    (storeI : Except String (List Sensor × List Lectura))
    (cs : List Cliente) (ss : List Sensor) (ls : List Lectura) :
    getClientes valC storeC none none none (some "101") =
      .err 400 "Parámetro pageSize inválido: máximo 100"
    ∧ (firstInvalid valC (cs.take 100) = none →
        getClientes valC (.ok cs) none none none (some "100") =
          .ok ⟨cs.length, 1, 100, cs.take 100⟩)
    ∧ (firstInvalid valC (cs.take 25) = none →
        getClientes valC (.ok cs) none none none none =
          .ok ⟨cs.length, 1, 25, cs.take 25⟩)
    ∧ getLecturas valL pd storeI none none none none (some "0") =
        .err 400 "'limit' debe ser entero entre 1 y 1000"
    ∧ getLecturas valL pd storeI none none none none (some "1001") =
        .err 400 "'limit' debe ser entero entre 1 y 1000"
    ∧ (firstInvalid valL (ls.take 1000) = none →
        getLecturas valL pd (.ok (ss, ls)) none none none none (some "1000") =
          .ok ⟨1000, ls.length, ls.take 1000⟩)
    ∧ (firstInvalid valL (ls.take 100) = none →
        getLecturas valL pd (.ok (ss, ls)) none none none none none =
          .ok ⟨100, ls.length, ls.take 100⟩) := by
  refine ⟨by rfl, ?_, ?_, by rfl, by rfl, ?_, ?_⟩
  · intro hv
    rw [getClientes_eq_core _ _ _ _ _ _ (by rfl)]
    exact clientesCore_no_filters valC cs 1 100 hv
  · intro hv
    rw [getClientes_eq_core _ _ _ _ _ _ (by rfl)]
    exact clientesCore_no_filters valC cs 1 25 hv
  · intro hv
    rw [getLecturas_eq_afterLoad _ _ _ _ _ _ _ _ _ (by decide) (by decide)]
    exact lecturasAfterLoad_no_filters valL pd ss ls 1000 hv
  · intro hv
    rw [getLecturas_eq_afterLoad _ _ _ _ _ _ _ _ _ (by decide) (by decide)]
    exact lecturasAfterLoad_no_filters valL pd ss ls 100 hv

/-- Witness for C8 at concrete stores. -/
theorem c8_bounds_witness :
    getClientes valCNone (.ok ([] : List Cliente)) none none none
        (some "100") = .ok ⟨0, 1, 100, []⟩
    ∧ getLecturas valLNone pdNone
        (.ok (([] : List Sensor), ([] : List Lectura)))
        none none none none (some "1000") = .ok ⟨1000, 0, []⟩ := by
  have h := c8_bounds valCNone valLNone pdNone (.ok []) (.ok ([], []))
    [] [] []
  exact ⟨h.2.1 (by rfl), h.2.2.2.2.2.1 (by rfl)⟩

theorem leadsWith_self (l : List Char) : leadsWith l l = true := by
  induction l with
  | nil => rfl
  | cons c cs ih => simp [leadsWith, ih]

theorem containsSub_suffix (m l : List Char) : containsSub l (m ++ l) = true := by
  induction m with
  | nil =>
    cases l with
    | nil => rfl
    | cons c cs => simp [containsSub, leadsWith_self]
  | cons b m ih => simp [containsSub, ih]

theorem strIncludes_suffix (x n : String) : strIncludes (x ++ n) n = true := by
  simp only [strIncludes]
  have h : (x ++ n).toList = x.toList ++ n.toList := rfl
  rw [h]
  exact containsSub_suffix _ _

/-- C9 (spec-modelled, the federation service code is not under `src/`): the
detail-by-name resolver returns exactly the parties whose `nombre` equals the
path parameter up to case; when none matches (in particular for any strict
superstring of a stored name) it answers not-found with a message embedding
the requested name. -/
theorem c9_detail_by_name (parties : List Cliente) (nameParam : String) :
    (∀ p, resolveDetalleByName parties nameParam = .found p →
      p ∈ parties ∧ strLower p.nombre = strLower nameParam)
    ∧ ((∃ p ∈ parties, strLower p.nombre = strLower nameParam) →
      ∃ p, resolveDetalleByName parties nameParam = .found p ∧
        strLower p.nombre = strLower nameParam)
    ∧ ((∀ p ∈ parties, strLower p.nombre ≠ strLower nameParam) →
      resolveDetalleByName parties nameParam =
          .notFound ("No encontrado: " ++ nameParam)
        ∧ strIncludes ("No encontrado: " ++ nameParam) nameParam = true) := by
  refine ⟨?_, ?_, ?_⟩
  · intro p hp
    simp only [resolveDetalleByName] at hp
    cases hf : parties.find? (fun c => strLower c.nombre == strLower nameParam) with
    | none => rw [hf] at hp; exact absurd hp (by simp)
    | some p2 =>
      rw [hf] at hp
      cases DetalleResp.found.inj hp
      exact ⟨List.mem_of_find?_eq_some hf,
        by simpa using List.find?_some hf⟩
  · intro hex
    obtain ⟨p, hmem, heq⟩ := hex
    have hs : (parties.find?
        (fun c => strLower c.nombre == strLower nameParam)).isSome := by
      rw [List.find?_isSome]
      exact ⟨p, hmem, by simp [heq]⟩
    obtain ⟨p2, hp2⟩ := Option.isSome_iff_exists.mp hs
    exact ⟨p2, by simp [resolveDetalleByName, hp2],
      by simpa using List.find?_some hp2⟩
  · intro hnone
    have hf : parties.find?
        (fun c => strLower c.nombre == strLower nameParam) = none := by
      rw [List.find?_eq_none]
      intro p hp
      simp [hnone p hp]
    exact ⟨by simp [resolveDetalleByName, hf], strIncludes_suffix _ _⟩

/-- Witness for C9: `ACME S.L.` matches the stored `Acme S.L.` while the
superstring name `Acme Solutions S.L.` does not match it. -/
theorem c9_detail_by_name_witness :
    (∃ p, resolveDetalleByName [sampleCliente] "ACME S.L." = .found p ∧
      strLower p.nombre = strLower "ACME S.L.")
    ∧ resolveDetalleByName [sampleCliente] "Acme Solutions S.L." =
        .notFound ("No encontrado: " ++ "Acme Solutions S.L.") := by
  constructor
  · exact (c9_detail_by_name [sampleCliente] "ACME S.L.").2.1
      ⟨sampleCliente, by simp, by decide⟩
  · refine ((c9_detail_by_name [sampleCliente] "Acme Solutions S.L.").2.2
      ?_).1
    intro p hp
    have hp2 : p = sampleCliente := by simpa using hp
    subst hp2
    decide

theorem mem_sensoresFiltered_iff (ss : List Sensor) (tipo u : Option String)
    (s : Sensor) :
    s ∈ sensoresFiltered ss tipo u ↔
      s ∈ ss ∧ (∀ t, tipo = some t → s.tipo = t)
        ∧ (∀ x, u = some x → s.ubicacion = x) := by
  cases tipo <;> cases u <;>
    simp [sensoresFiltered, List.mem_filter, beq_iff_eq] <;> tauto

/-- C10: `GET /sensores` never answers 400 — every response is a 200 or a
500 — and every present `tipo`/`ubicacionId` value, the empty string
included, is used verbatim as an exact-equality filter with no parameter
validation. -/
theorem c10_sensores_no_400 (valS : Sensor → Option Violation)
    (store : Except String (List Sensor)) (tipo u : Option String) :
    (respStatus (getSensores valS store tipo u) = 200 ∨
      respStatus (getSensores valS store tipo u) = 500)
    ∧ (∀ ss body, store = .ok ss → getSensores valS store tipo u = .ok body →
        body.sensores = sensoresFiltered ss tipo u
        ∧ ∀ s, s ∈ body.sensores ↔
            s ∈ ss ∧ (∀ t, tipo = some t → s.tipo = t)
              ∧ (∀ x, u = some x → s.ubicacion = x)) := by
  constructor
  · cases store with
    | error e => exact Or.inr rfl
    | ok ss =>
      cases hfi : firstInvalid valS (sensoresFiltered ss tipo u) with
      | some v => exact Or.inr (by simp [getSensores, respStatus, hfi])
      | none => exact Or.inl (by simp [getSensores, respStatus, hfi])
  · intro ss body hst hok
    subst hst
    simp only [getSensores] at hok
    split at hok
    · exact absurd hok (by simp)
    · rename_i hfi
      have hb := (HResp.ok.inj hok).symm
      subst hb
      exact ⟨rfl, fun s => mem_sensoresFiltered_iff ss tipo u s⟩

/-- Witness for C10: an empty `tipo` is accepted and filters to the sensors
whose `tipo` is the empty string (none here). -/
theorem c10_sensores_no_400_witness :
    (⟨some "", none, 0, []⟩ : SensoresBody).sensores =
      sensoresFiltered [sampleSensor] (some "") none := by
  have h := c10_sensores_no_400 valSNone (.ok [sampleSensor]) (some "") none
  exact (h.2 [sampleSensor] ⟨some "", none, 0, []⟩ rfl (by rfl)).1

theorem lecturasAfterLoad_invalid {valL : Lectura → Option Violation}
    {pd : String → Option Int} {ss : List Sensor} {ls : List Lectura}
    {sid uid fq tq : Option String} {limit : Int} {dtF dtT : Option Int}
    {f4 : List Lectura} {v : Violation}
    (hF : parseOptDate pd fq = .ok dtF) (hT : parseOptDate pd tq = .ok dtT)
    (hrb : rangeBad dtF dtT = false)
    (htemp : lecturasTemporal pd dtF dtT (lecturasNT ss ls sid uid) = .ok f4)
    (hfi : firstInvalid valL (f4.take limit.toNat) = some v) :
    lecturasAfterLoad valL pd ss ls sid uid fq tq limit =
      .err 500 ("Lectura no conforme al schema: " ++ violMsg v) := by
  simp [lecturasAfterLoad, hF, hT, hrb, htemp, hfi]

/-- A validator that rejects every client with a violation at path
`/nombre`. -/
def cexValC : Cliente → Option Violation :=
  fun _ => some ⟨"/nombre", some "must be string"⟩

/-- C1 fails as stated: the 500 detail embeds only the first violation's
message, never its path — here the violation path `/nombre` does not occur
anywhere in the response detail. -/
theorem c1_counterexample :
    getClientes cexValC (.ok [sampleCliente]) none none none none =
      .err 500 "Lectura no conforme al schema: must be string"
    ∧ strIncludes "Lectura no conforme al schema: must be string" "/nombre" =
        false :=
  ⟨by rfl, by rfl⟩

/-- C1 (amended): every record of a 200 page passed schema validation, and
an invalid record anywhere in the page slice aborts the whole response with
a 500 whose detail embeds the first violation's message (not its path), on
both `GET /clientes` and `GET /lecturas`. -/
theorem c1_validation_gate
    (valC : Cliente → Option Violation) (valL : Lectura → Option Violation)
    (pd : String → Option Int) (storeC : Except String (List Cliente))
    (storeI : Except String (List Sensor × List Lectura))
    (q u p ps sid uid fq tq lq : Option String) :
    (∀ body, getClientes valC storeC q u p ps = .ok body →
      ∀ c ∈ body.data, valC c = none)
    ∧ (∀ body, getLecturas valL pd storeI sid uid fq tq lq = .ok body →
      ∀ l ∈ body.lecturas, valL l = none)
    ∧ (∀ cs v, storeC = .ok cs → clientesParamError q u p ps = none →
      firstInvalid valC (((clientesFiltered cs q u).drop
          ((parsePositiveInt p 1 - 1) *
            min (max (parsePositiveInt ps 25) 1) 100)).take
        (min (max (parsePositiveInt ps 25) 1) 100)) = some v →
      getClientes valC storeC q u p ps =
        .err 500 ("Lectura no conforme al schema: " ++ violMsg v))
    ∧ (∀ ss ls dtF dtT f4 v, storeI = .ok (ss, ls) →
      0 < limitOf lq → limitOf lq ≤ 1000 →
      parseOptDate pd fq = .ok dtF → parseOptDate pd tq = .ok dtT →
      rangeBad dtF dtT = false →
      lecturasTemporal pd dtF dtT (lecturasNT ss ls sid uid) = .ok f4 →
      firstInvalid valL (f4.take (limitOf lq).toNat) = some v →
      getLecturas valL pd storeI sid uid fq tq lq =
        .err 500 ("Lectura no conforme al schema: " ++ violMsg v)) := by
  refine ⟨?_, ?_, ?_, ?_⟩
  · intro body h c hc
    obtain ⟨cs, hstore, hb, hfi⟩ := getClientes_ok_inv h
    exact (firstInvalid_eq_none valC body.data).mp hfi c hc
  · intro body h l hl
    obtain ⟨ss, ls, hstore, h1, h2, hAL⟩ := getLecturas_ok_inv h
    obtain ⟨dtF, dtT, f4, hF, hT, hrb, htemp, hb, hfi⟩ :=
      lecturasAfterLoad_ok_inv hAL
    exact (firstInvalid_eq_none valL body.lecturas).mp hfi l hl
  · intro cs v hstore hpe hfi
    subst hstore
    rw [getClientes_eq_core _ _ _ _ _ _ hpe]
    exact clientesCore_invalid hfi
  · intro ss ls dtF dtT f4 v hstore h1 h2 hF hT hrb htemp hfi
    subst hstore
    rw [getLecturas_eq_afterLoad _ _ _ _ _ _ _ _ _ h1 h2]
    exact lecturasAfterLoad_invalid hF hT hrb htemp hfi

/-- Witness for C1 (amended) at a concrete store and `pageSize=50`. -/
theorem c1_validation_gate_witness :
    getClientes cexValC (.ok [sampleCliente]) none none none (some "50") =
      .err 500 ("Lectura no conforme al schema: " ++
        violMsg ⟨"/nombre", some "must be string"⟩) := by
  have h := (c1_validation_gate cexValC valLNone pdNone
      (.ok [sampleCliente]) (.ok ([], [])) none none none (some "50")
      none none none none none).2.2.1
  exact h [sampleCliente] ⟨"/nombre", some "must be string"⟩ rfl (by rfl)
    (by rfl)

/-- C4 fails as stated: a present non-integer `limit` is never rejected —
it silently falls back to the default 100 and the request succeeds with a
200; a present malformed `from` is only examined after the data load (with
an unreadable store the response is the load's 500, not a 400); and
`/sensores` accepts an empty `tipo` without any validation. -/
theorem c4_counterexample :
    getLecturas valLNone pdNone (.ok ([], [])) none none none none
        (some "x") = .ok ⟨100, 0, []⟩
    ∧ getLecturas valLNone pdNone (.error "io") none none (some "bad") none
        none = .err 500 "io"
    ∧ getSensores valSNone (.ok []) (some "") none =
        .ok ⟨some "", none, 0, []⟩ :=
  ⟨by rfl, by rfl, by rfl⟩

/-- C4 (amended): on `/clientes` a present malformed `q`, `ubicacionId`,
`page` or `pageSize` is rejected with a structured 400 whose outcome does
not depend on the store (so before any file I/O); on `/lecturas` an integer
`limit` outside `[1,1000]` is likewise rejected store-independently, but a
non-integer `limit` is silently replaced by the default 100, and both a
malformed `from` and a malformed `to` are rejected with 400 only after a
successful data load; `/sensores` performs no parameter validation at all
(its status is always 200 or 500, never 400). -/
theorem c4_param_validation (q u p ps lq : Option String) :
    (∀ d, clientesParamError q u p ps = some d →
      ∀ (valC : Cliente → Option Violation)
        (store : Except String (List Cliente)),
        getClientes valC store q u p ps = .err 400 d)
    ∧ ((∃ s, q = some s ∧ isNonEmptyString s = false) →
        clientesParamError q u p ps ≠ none)
    ∧ (u = some "" → clientesParamError q u p ps ≠ none)
    ∧ ((∃ s, p = some s ∧ isPositiveIntString s = false) →
        clientesParamError q u p ps ≠ none)
    ∧ ((∃ s n, ps = some s ∧ (isPositiveIntString s = false ∨
          (jsParseInt s = some n ∧ 100 < n))) →
        clientesParamError q u p ps ≠ none)
    ∧ ((limitOf lq ≤ 0 ∨ 1000 < limitOf lq) →
      ∀ (valL : Lectura → Option Violation) (pd : String → Option Int)
        (store : Except String (List Sensor × List Lectura))
        (sid uid fq tq : Option String),
        getLecturas valL pd store sid uid fq tq lq =
          .err 400 "'limit' debe ser entero entre 1 y 1000")
    ∧ (∀ s, jsParseInt s = none →
      ∀ (valL : Lectura → Option Violation) (pd : String → Option Int)
        (store : Except String (List Sensor × List Lectura))
        (sid uid fq tq : Option String),
        getLecturas valL pd store sid uid fq tq (some s) =
          getLecturas valL pd store sid uid fq tq none)
    ∧ (∀ (valL : Lectura → Option Violation) (pd : String → Option Int)
        (ss : List Sensor) (ls : List Lectura) (sid uid tq : Option String)
        (f : String), 0 < limitOf lq → limitOf lq ≤ 1000 → pd f = none →
        getLecturas valL pd (.ok (ss, ls)) sid uid (some f) tq lq =
          .err 400 ("Fecha ISO inválida: " ++ f))
    ∧ (∀ (valL : Lectura → Option Violation) (pd : String → Option Int)
        (ss : List Sensor) (ls : List Lectura) (sid uid fq : Option String)
        (dtF : Option Int) (t : String),
        0 < limitOf lq → limitOf lq ≤ 1000 →
        parseOptDate pd fq = .ok dtF → pd t = none →
        getLecturas valL pd (.ok (ss, ls)) sid uid fq (some t) lq =
          .err 400 ("Fecha ISO inválida: " ++ t))
    ∧ (∀ (valS : Sensor → Option Violation)
        (store : Except String (List Sensor)) (tipo u2 : Option String),
        respStatus (getSensores valS store tipo u2) = 200 ∨
          respStatus (getSensores valS store tipo u2) = 500) := by
  refine ⟨?_, ?_, ?_, ?_, ?_, ?_, ?_, ?_, ?_, ?_⟩
  · intro d hpe valC store
    simp [getClientes, hpe]
  · rintro ⟨s, rfl, hs⟩
    simp [clientesParamError, hs]
  · intro hu
    subst hu
    simp only [clientesParamError]
    split
    · simp
    · simp
  · rintro ⟨s, rfl, hs⟩
    simp only [clientesParamError]
    split
    · simp
    · split
      · simp
      · simp [hs]
  · rintro ⟨s, n, rfl, hcase⟩
    simp only [clientesParamError]
    split
    · simp
    · split
      · simp
      · split
        · simp
        · cases hcase with
          | inl hbad => simp [hbad]
          | inr hpair =>
            obtain ⟨hjs, hn⟩ := hpair
            by_cases hps : isPositiveIntString s
            · simp [hps, hjs, hn]
            · simp [hps]
  · intro hl valL pd store sid uid fq tq
    exact getLecturas_badLimit valL pd store sid uid fq tq lq hl
  · intro s hjs valL pd store sid uid fq tq
    have h1 : limitOf (some s) = 100 := by simp [limitOf, hjs]
    have h2 : limitOf (none : Option String) = 100 := by decide
    have hl : limitOf (some s) = limitOf none := by rw [h1, h2]
    simp only [getLecturas]
    rw [hl]
  · intro valL pd ss ls sid uid tq f h1 h2 hpf
    rw [getLecturas_eq_afterLoad _ _ _ _ _ _ _ _ _ h1 h2]
    simp [lecturasAfterLoad, parseOptDate, hpf]
  · intro valL pd ss ls sid uid fq dtF t h1 h2 hF hpt
    rw [getLecturas_eq_afterLoad _ _ _ _ _ _ _ _ _ h1 h2]
    simp only [lecturasAfterLoad, hF]
    simp [parseOptDate, hpt]
  · intro valS store tipo u2
    cases store with
    | error e => exact Or.inr rfl
    | ok ss =>
      cases hfi : firstInvalid valS (sensoresFiltered ss tipo u2) with
      | some v => exact Or.inr (by simp [getSensores, respStatus, hfi])
      | none => exact Or.inl (by simp [getSensores, respStatus, hfi])

/-- Witness for C4 (amended) at concrete requests. -/
theorem c4_param_validation_witness :
    getClientes valCNone (.ok [sampleCliente]) (some "") none none none =
      .err 400 "Parámetro q inválido"
    ∧ getLecturas valLNone pdNone (.ok ([], [])) none none none none
        (some "x") =
      getLecturas valLNone pdNone (.ok ([], [])) none none none none none
    ∧ getLecturas valLNone pdNone (.ok ([], [])) none none (some "bad")
        none none = .err 400 ("Fecha ISO inválida: " ++ "bad")
    ∧ getLecturas valLNone pdNone (.ok ([], [])) none none none
        (some "bad2") none = .err 400 ("Fecha ISO inválida: " ++ "bad2")
    ∧ (respStatus (getSensores valSNone (.ok [sampleSensor]) (some "") none)
          = 200 ∨
        respStatus (getSensores valSNone (.ok [sampleSensor]) (some "") none)
          = 500) := by
  have h := c4_param_validation (some "") none none none none
  have h2 := c4_param_validation none none none none none
  refine ⟨h.1 "Parámetro q inválido" (by rfl) valCNone (.ok [sampleCliente]),
    ?_, ?_, ?_, ?_⟩
  · exact h2.2.2.2.2.2.2.1 "x" (by rfl) valLNone pdNone (.ok ([], []))
      none none none none
  · exact h2.2.2.2.2.2.2.2.1 valLNone pdNone [] [] none none none "bad"
      (by decide) (by decide) (by rfl)
  · exact h2.2.2.2.2.2.2.2.2.1 valLNone pdNone [] [] none none none none
      "bad2" (by decide) (by decide) (by rfl) (by rfl)
  · exact h2.2.2.2.2.2.2.2.2.2 valSNone (.ok [sampleSensor]) (some "") none
